import Mathlib

/-!
Verification of the pinger service (src/main.go) against its
natural-language specification.

The Go program is shallowly embedded: its pure parts (the ping-output
parsing of `checkPing`, the prefix stripping of `checkHTTP`, the request
dispatch of `handleRequest`) become Lean functions; its effectful parts
(running the external `ping` utility, issuing an HTTP HEAD request) become
explicit parameters (`Option String` for the utility's combined output,
a `net` function for the HTTP round trip).  The nondeterminism of the Go
`select` statement in the admission gate (when more than one case is
ready, one is chosen via uniform pseudo-random selection, per the Go
language specification) is resolved by an explicit `SelectPick`
parameter.
-/

deriving instance DecidableEq for Except

namespace Pinger

/-! ## Ping-output parsing (src/main.go, checkPing, lines 149-175)

The Go code applies the regular expression `(?m)/(\d+\.\d+)/(\d+\.\d+)/`
to the utility's combined output via `FindStringSubmatch` (first match,
left to right) and parses capture group 2 with `strconv.ParseFloat`.
The `(?m)` flag only affects `^`/`$`, which do not occur in the pattern.
Since a digit is never `.` or `/`, greedy matching with backtracking over
`\d+` coincides with maximal munch, so the matcher below is exact.
Decimal literals `\d+.\d+` are read as exact rationals. -/

/-- Longest digit run at the head of the list, together with the rest
(the behaviour of `\d+` followed by a non-digit in the pattern). -/
def takeDigits : List Char → List Char × List Char
  | [] => ([], [])
  | c :: cs =>
    if c.isDigit then
      let p := takeDigits cs
      (c :: p.1, p.2)
    else ([], c :: cs)

/-- Match `\d+\.\d+` at the head of the list, returning the matched
characters and the remainder. -/
def matchNum (l : List Char) : Option (List Char × List Char) :=
  let p1 := takeDigits l
  if p1.1 = [] then none
  else
    match p1.2 with
    | c :: r2 =>
      if c = '.' then
        let p2 := takeDigits r2
        if p2.1 = [] then none else some (p1.1 ++ '.' :: p2.1, p2.2)
      else none
    | [] => none

/-- Match `/(\d+\.\d+)/(\d+\.\d+)/` at the head of the list, returning
the two capture groups. -/
def matchAt (l : List Char) : Option (List Char × List Char) :=
  match l with
  | c :: r =>
    if c = '/' then
      match matchNum r with
      | some (g1, r1) =>
        match r1 with
        | c1 :: r2 =>
          if c1 = '/' then
            match matchNum r2 with
            | some (g2, r3) =>
              match r3 with
              | c2 :: _ => if c2 = '/' then some (g1, g2) else none
              | [] => none
            | none => none
          else none
        | [] => none
      | none => none
    else none
  | [] => none

/-- Leftmost match of the pattern in the text
(`regexp.FindStringSubmatch` semantics). -/
def findFirst : List Char → Option (List Char × List Char)
  | [] => none
  | c :: cs =>
    match matchAt (c :: cs) with
    | some g => some g
    | none => findFirst cs

/-- Numeric value of a digit string (most significant digit first). -/
def digitsToNat (l : List Char) : Nat :=
  l.foldl (fun a c => 10 * a + (c.toNat - 48)) 0

/-- Exact value of the decimal literal `d1.d2`: the rational
`d1 + d2 / 10 ^ |d2|`, built with `mkRat` so that it evaluates. -/
def decVal (d1 d2 : List Char) : ℚ :=
  mkRat (digitsToNat d1 * 10 ^ d2.length + digitsToNat d2) (10 ^ d2.length)

/-- `strconv.ParseFloat` restricted to the shape `\d+\.\d+` that the
capture groups always have, read as an exact rational. -/
def parseDec (l : List Char) : Option ℚ :=
  let p1 := takeDigits l
  if p1.1 = [] then none
  else
    match p1.2 with
    | c :: r2 =>
      if c = '.' then
        let p2 := takeDigits r2
        if p2.1 = [] then none
        else if p2.2 = [] then some (decVal p1.1 p2.1)
        else none
      else none
    | [] => none

/-- The distinct failure values `checkPing` can produce. -/
inductive PingErr
  | unreachable
  | badParse
  | invalid (v : ℚ)
  | noMatch
  deriving DecidableEq

/-- The human-readable message of each failure
(the strings built with `fmt.Errorf` in src/main.go). -/
def PingErr.msg : PingErr → String
  | .unreachable => "ping failed: host unreachable or timeout"
  | .badParse => "parse error"
  | .invalid v => "invalid ping result: " ++ toString v
  | .noMatch => "could not parse ping output"

/-- Lines 158-174 of src/main.go on a character list: find the first
match of the pattern, parse capture group 2, reject non-positive
values. -/
def checkPingList (l : List Char) : Except PingErr ℚ :=
  match findFirst l with
  | some (_, g2) =>
    match parseDec g2 with
    | none => .error .badParse
    | some val => if val ≤ 0 then .error (.invalid val) else .ok val
  | none => .error .noMatch

/-- Lines 158-174 of src/main.go: parse the utility's output once the
external process has exited successfully. -/
def checkPingOutput (out : String) : Except PingErr ℚ :=
  checkPingList out.toList

/-- `checkPing` with the external run abstracted: `none` models
`cmd.CombinedOutput` returning an error (non-zero exit, unreachable
host, cancellation), `some out` a successful exit with output `out`. -/
def checkPing (run : Option String) : Except PingErr ℚ :=
  match run with
  | none => .error .unreachable
  | some out => checkPingOutput out

/-- The argument vector handed to the external utility
(line 151 of src/main.go): `ping -c 3 -W 2 -q host`. -/
def pingCmdArgs (host : String) : List String :=
  ["-c", "3", "-W", "2", "-q", host]

/-! ## The spec's triad pattern

The specification describes the extraction pattern as matching the form
`/<min>/<avg>/<max>/` with decimal numbers, i.e. a THREE-number form,
while the code's regular expression `/(\d+\.\d+)/(\d+\.\d+)/` is a
two-number form.  The following definitions follow the spec's words, to
be compared with the behaviour of `checkPingOutput` above. -/

/-- Does `needle` occur at the head of the second list? -/
def subAt : List Char → List Char → Bool
  | [], _ => true
  | _ :: _, [] => false
  | a :: as, b :: bs => a = b && subAt as bs

/-- Does `needle` occur anywhere in the second list? -/
def containsSub (needle : List Char) : List Char → Bool
  | [] => subAt needle []
  | c :: t => subAt needle (c :: t) || containsSub needle t

/-- Is `s` exactly a decimal literal `\d+\.\d+`? -/
def decShape (s : String) : Bool := (parseDec s.toList).isSome

/-- Following the spec's words: the output contains the summary triad
in the form `/<min>/<avg>/<max>/` with the given decimal numbers. -/
def specTriadIn (out mn av mx : String) : Bool :=
  decShape mn && decShape av && decShape mx &&
    containsSub ("/" ++ mn ++ "/" ++ av ++ "/" ++ mx ++ "/").toList out.toList

/-- Match `/(\d+\.\d+)/(\d+\.\d+)/(\d+\.\d+)/` at the head of the list:
the spec's three-number pattern. -/
def triadAt (l : List Char) : Bool :=
  match l with
  | c :: r =>
    c = '/' &&
      ((matchNum r).elim false fun p1 =>
        match p1.2 with
        | c1 :: r2 =>
          c1 = '/' &&
            ((matchNum r2).elim false fun p2 =>
              match p2.2 with
              | c2 :: r3 =>
                c2 = '/' &&
                  ((matchNum r3).elim false fun p3 =>
                    match p3.2 with
                    | c3 :: _ => c3 = '/'
                    | [] => false)
              | [] => false)
        | [] => false)
  | [] => false

/-- Following the spec's words: the output contains, anywhere, the
three-number pattern `/<min>/<avg>/<max>/` with decimal numbers. -/
def specHasTriad : List Char → Bool
  | [] => triadAt []
  | c :: t => triadAt (c :: t) || specHasTriad t

/-- String wrapper for `specHasTriad`. -/
def specHasTriadStr (out : String) : Bool := specHasTriad out.toList

/-! ## HTTP probe (src/main.go, checkHTTP, lines 177-203)

The network round trip (building the HEAD request and running the
client, lines 184-199) is abstracted as a function `net` from the
requested URL to either a status code or a transport error.  The pure
part — the prefix stripping and URL construction — is embedded
directly. -/

/-- Go's `strings.TrimPrefix p` applied to `s`: drop `p` from the front
of `s` if `s` starts with it, otherwise return `s` unchanged. -/
def trimLead (p s : String) : String :=
  if subAt p.toList s.toList then s.drop p.length else s

/-- Lines 178-179: strip `http://` first, then `https://`. -/
def stripHost (host : String) : String :=
  trimLead "https://" (trimLead "http://" host)

/-- Line 181: the URL the HEAD request is issued against. -/
def targetUrl (host scheme : String) : String :=
  scheme ++ "://" ++ stripHost host

/-- `checkHTTP` with the round trip abstracted: any request-construction
or transport failure is an `.error` of `net`; a completed round trip is
`.ok` of the raw response status code, which is returned unmodified. -/
def checkHTTP (net : String → Except String Nat) (host scheme : String) :
    Except String Nat :=
  net (targetUrl host scheme)

/-! ## Request dispatcher (src/main.go, handleRequest, lines 69-147)

The response bodies the handler can emit.  `sendError` (lines 73-78)
encodes `map[string]string{"error": msg}` — a body with only an `error`
field.  The success path (lines 132-146) encodes the `Response` struct
(lines 18-23) — host, type, always a result (`0` on error), and an
`error` field only on failure (`omitempty`). -/
inductive Body
  | errorOnly (msg : String)
  | envelope (host typ : String) (result : ℚ) (err : Option String)
  deriving DecidableEq

/-- What the handler wrote to the connection: either nothing at all
(the cancelled-while-acquiring path, line 104) or one status code and
one body. -/
inductive Emitted
  | none
  | resp (status : Nat) (body : Body)
  deriving DecidableEq

/-- Resolution of the `select` statement's nondeterminism (lines
98-109): per the Go specification, when more than one communication can
proceed, a single one is chosen via uniform pseudo-random selection.
`send` stands for the slot-acquisition case being chosen, `done` for the
context-cancellation case. -/
inductive SelectPick
  | send
  | done
  deriving DecidableEq

/-- Outcome of consulting the admission gate. -/
inductive GateOutcome
  | admitted
  | busy
  | abandoned
  deriving DecidableEq

/-- The `select` of lines 98-109.  The send case is ready iff a slot is
free; the done case is ready iff the request context is cancelled; the
`default` branch runs only when neither is ready. -/
def gateStep (slotFree cancelled : Bool) (pick : SelectPick) : GateOutcome :=
  match slotFree, cancelled with
  | true, false => .admitted
  | true, true => if pick = .send then .admitted else .abandoned
  | false, true => .abandoned
  | false, false => .busy

/-- Process-wide state: the configured credential (`apiKey`, empty means
authorization disabled), the gate capacity, and the number of slots
currently held by other in-flight requests. -/
structure Ctx where
  apiKey : String
  capacity : Nat
  used : Nat
  deriving DecidableEq

/-- One inbound request: the `key`, `host` and `method` query
parameters (absent parameters read as `""`), and whether the request's
context is already cancelled when the gate is consulted. -/
structure Req where
  key : String
  host : String
  method : String
  cancelled : Bool
  deriving DecidableEq

/-- Observable result of one run of the handler: what was emitted,
whether the probe executor ran and with which arguments, whether the
gate was consulted and admitted the request, and the number of held
slots after the handler (and its deferred release) returned. -/
structure HR where
  emitted : Emitted
  probeRan : Bool
  gateConsulted : Bool
  admitted : Bool
  usedAfter : Nat
  probeArgs : Option (String × String)
  deriving DecidableEq

/-- Method selection, lines 112-115: `http` and `https` select the HTTP
probe with that scheme, anything else falls back to `ping`. -/
def selMethod (m : String) : String :=
  if m = "http" || m = "https" then m else "ping"

/-- The handler, lines 69-147, with the probe executors abstracted as a
function `probe` from the selected method and the host to a scalar
result or an error message. -/
def handleRequest (c : Ctx) (req : Req) (pick : SelectPick)
    (probe : String → String → Except String ℚ) : HR :=
  if c.apiKey ≠ "" ∧ req.key ≠ c.apiKey then
    { emitted := .resp 403 (.errorOnly "Auth failed"), probeRan := false,
      gateConsulted := false, admitted := false, usedAfter := c.used,
      probeArgs := Option.none }
  else if req.host = "" then
    { emitted := .resp 400 (.errorOnly "host required"), probeRan := false,
      gateConsulted := false, admitted := false, usedAfter := c.used,
      probeArgs := Option.none }
  else
    match gateStep (decide (c.used < c.capacity)) req.cancelled pick with
    | .abandoned =>
      { emitted := .none, probeRan := false, gateConsulted := true,
        admitted := false, usedAfter := c.used, probeArgs := Option.none }
    | .busy =>
      { emitted := .resp 503 (.errorOnly "Server is too busy, try again later"),
        probeRan := false, gateConsulted := true, admitted := false,
        usedAfter := c.used, probeArgs := Option.none }
    | .admitted =>
      match probe (selMethod req.method) req.host with
      | .ok v =>
        { emitted := .resp 200 (.envelope req.host (selMethod req.method) v Option.none),
          probeRan := true, gateConsulted := true, admitted := true,
          usedAfter := c.used, probeArgs := some (selMethod req.method, req.host) }
      | .error e =>
        { emitted := .resp 200 (.envelope req.host (selMethod req.method) 0 (some e)),
          probeRan := true, gateConsulted := true, admitted := true,
          usedAfter := c.used, probeArgs := some (selMethod req.method, req.host) }

/-- Does a body have the envelope shape (host, type and a result field
present)?  `sendError` bodies do not. -/
def Body.hasEnvelopeShape : Body → Bool
  | .errorOnly _ => false
  | .envelope _ _ _ _ => true

/-- A sample probe executor used to instantiate the handler theorems at
concrete inputs. -/
def probeConst : String → String → Except String ℚ := fun _ _ => .ok 1

/-- Is the head of the list a digit? -/
def headDigit : List Char → Bool
  | [] => false
  | c :: _ => c.isDigit

/-! ## Lemmas about the embedded regular-expression matcher -/

lemma matchAt_ne_slash {c : Char} (l : List Char) (h : c ≠ '/') :
    matchAt (c :: l) = Option.none := by
  simp [matchAt, h]

lemma findFirst_append_no_slash (pre rest : List Char)
    (h : ∀ ch ∈ pre, ch ≠ '/') :
    findFirst (pre ++ rest) = findFirst rest := by
  induction pre with
  | nil => rfl
  | cons c t ih =>
    have hc : c ≠ '/' := h c (by simp)
    have ht : ∀ ch ∈ t, ch ≠ '/' := fun ch hm => h ch (by simp [hm])
    simp only [List.cons_append, findFirst, matchAt_ne_slash _ hc]
    exact ih ht

lemma takeDigits_split (d r : List Char)
    (hd : ∀ ch ∈ d, ch.isDigit = true) (hr : headDigit r = false) :
    takeDigits (d ++ r) = (d, r) := by
  induction d with
  | nil =>
    cases r with
    | nil => rfl
    | cons c t =>
      simp only [headDigit] at hr
      simp [takeDigits, hr]
  | cons c t ih =>
    have hc : c.isDigit = true := hd c (by simp)
    have ht : ∀ ch ∈ t, ch.isDigit = true := fun ch hm => hd ch (by simp [hm])
    simp [takeDigits, hc, ih ht]

lemma matchNum_split (d1 d2 r : List Char)
    (h1 : d1 ≠ []) (hd1 : ∀ ch ∈ d1, ch.isDigit = true)
    (h2 : d2 ≠ []) (hd2 : ∀ ch ∈ d2, ch.isDigit = true)
    (hr : headDigit r = false) :
    matchNum (d1 ++ '.' :: (d2 ++ r)) = some (d1 ++ '.' :: d2, r) := by
  have e1 : takeDigits (d1 ++ '.' :: (d2 ++ r)) = (d1, '.' :: (d2 ++ r)) :=
    takeDigits_split d1 _ hd1 (by simp [headDigit])
  have e2 : takeDigits (d2 ++ r) = (d2, r) := takeDigits_split d2 r hd2 hr
  simp [matchNum, e1, e2, h1, h2]

lemma matchAt_two_nums (d1 d2 d3 d4 rest : List Char)
    (h1 : d1 ≠ []) (hd1 : ∀ ch ∈ d1, ch.isDigit = true)
    (h2 : d2 ≠ []) (hd2 : ∀ ch ∈ d2, ch.isDigit = true)
    (h3 : d3 ≠ []) (hd3 : ∀ ch ∈ d3, ch.isDigit = true)
    (h4 : d4 ≠ []) (hd4 : ∀ ch ∈ d4, ch.isDigit = true) :
    matchAt ('/' :: (d1 ++ '.' :: (d2 ++ '/' :: (d3 ++ '.' :: (d4 ++ '/' :: rest)))))
      = some (d1 ++ '.' :: d2, d3 ++ '.' :: d4) := by
  have e1 : matchNum (d1 ++ '.' :: (d2 ++ '/' :: (d3 ++ '.' :: (d4 ++ '/' :: rest))))
      = some (d1 ++ '.' :: d2, '/' :: (d3 ++ '.' :: (d4 ++ '/' :: rest))) :=
    matchNum_split d1 d2 _ h1 hd1 h2 hd2 (by simp [headDigit])
  have e2 : matchNum (d3 ++ '.' :: (d4 ++ '/' :: rest))
      = some (d3 ++ '.' :: d4, '/' :: rest) :=
    matchNum_split d3 d4 _ h3 hd3 h4 hd4 (by simp [headDigit])
  simp [matchAt, e1, e2]

lemma parseDec_decimal (d1 d2 : List Char)
    (h1 : d1 ≠ []) (hd1 : ∀ ch ∈ d1, ch.isDigit = true)
    (h2 : d2 ≠ []) (hd2 : ∀ ch ∈ d2, ch.isDigit = true) :
    parseDec (d1 ++ '.' :: d2) = some (decVal d1 d2) := by
  have e1 : takeDigits (d1 ++ '.' :: d2) = (d1, '.' :: d2) :=
    takeDigits_split d1 _ hd1 (by simp [headDigit])
  have e2 : takeDigits (d2 ++ []) = (d2, []) :=
    takeDigits_split d2 [] hd2 (by simp [headDigit])
  rw [List.append_nil] at e2
  simp [parseDec, e1, e2, h1, h2]

lemma checkPingOutput_mk (l : List Char) :
    checkPingOutput (String.mk l) = checkPingList l := rfl

lemma checkPing_some (out : String) :
    checkPing (some out) = checkPingList out.toList := rfl

/-! ## Claim C2 -/

/-- C2 counterexample: the claim states that whenever the output of a
successful run contains the round-trip-time triad `/<min>/<avg>/<max>/`
with decimal numbers, `checkPing` returns the average (middle) value of
that triad.  The output below contains exactly one such triad,
`/1.0/2.0/3.0/` (min 1.0, avg 2.0, max 3.0), yet `checkPing` returns
8.0 — the second number of the FIRST match of the two-number pattern
`/(\d+\.\d+)/(\d+\.\d+)/` the code actually uses — not the average
2.0. -/
theorem c2_counterexample :
    specTriadIn "/9.0/8.0/ = /1.0/2.0/3.0/" "1.0" "2.0" "3.0" = true
    ∧ checkPing (some "/9.0/8.0/ = /1.0/2.0/3.0/") = .ok 8
    ∧ (8 : ℚ) ≠ decVal ['2'] ['0'] :=
  ⟨by decide, by decide, by decide⟩

/-- C2 amended: `checkPing` returns the second capture group of the
first match of `/(\d+\.\d+)/(\d+\.\d+)/` in the output.  When the
leading slash of the triad `/<min>/<avg>/<max>/` is the first slash in
the output, that first match is `/<min>/<avg>/` and the returned value
is the average, provided it is positive.  (On the Linux `ping -q`
summary `min/avg/max/mdev = A/B/C/D ms` the triad is not preceded by a
slash-free prefix — the first match there is `/B/C/` and the maximum is
returned instead, as the counterexample shows.) -/
theorem c2_amended (pre m1 m2 a1 a2 x1 x2 tail : List Char)
    (hpre : ∀ ch ∈ pre, ch ≠ '/')
    (hm1 : m1 ≠ []) (hdm1 : ∀ ch ∈ m1, ch.isDigit = true)
    (hm2 : m2 ≠ []) (hdm2 : ∀ ch ∈ m2, ch.isDigit = true)
    (ha1 : a1 ≠ []) (hda1 : ∀ ch ∈ a1, ch.isDigit = true)
    (ha2 : a2 ≠ []) (hda2 : ∀ ch ∈ a2, ch.isDigit = true)
    (_hx1 : x1 ≠ []) (_hdx1 : ∀ ch ∈ x1, ch.isDigit = true)
    (_hx2 : x2 ≠ []) (_hdx2 : ∀ ch ∈ x2, ch.isDigit = true)
    (hpos : 0 < decVal a1 a2) :
    checkPingOutput
        (String.mk (pre ++ '/' :: (m1 ++ '.' :: (m2 ++ '/' ::
          (a1 ++ '.' :: (a2 ++ '/' :: (x1 ++ '.' :: (x2 ++ '/' :: tail))))))))
      = .ok (decVal a1 a2) := by
  rw [checkPingOutput_mk]
  have hff : findFirst (pre ++ '/' :: (m1 ++ '.' :: (m2 ++ '/' ::
        (a1 ++ '.' :: (a2 ++ '/' :: (x1 ++ '.' :: (x2 ++ '/' :: tail)))))))
      = some (m1 ++ '.' :: m2, a1 ++ '.' :: a2) := by
    rw [findFirst_append_no_slash pre _ hpre]
    simp only [findFirst,
      matchAt_two_nums m1 m2 a1 a2 _ hm1 hdm1 hm2 hdm2 ha1 hda1 ha2 hda2]
  unfold checkPingList
  rw [hff]
  simp only [parseDec_decimal a1 a2 ha1 hda1 ha2 hda2]
  rw [if_neg (not_le.mpr hpos)]

/-- C2 amended, instantiated: the output `rtt = /1.123/2.456/3.789/`
has its triad first, and the average 2.456 is returned. -/
theorem c2_amended_witness :
    checkPingOutput
        (String.mk ("rtt = ".toList ++ '/' :: (['1'] ++ '.' :: (['1', '2', '3'] ++ '/' ::
          (['2'] ++ '.' :: (['4', '5', '6'] ++ '/' ::
            (['3'] ++ '.' :: (['7', '8', '9'] ++ '/' :: " ms".toList))))))))
      = .ok (decVal ['2'] ['4', '5', '6']) :=
  c2_amended "rtt = ".toList ['1'] ['1', '2', '3'] ['2'] ['4', '5', '6']
    ['3'] ['7', '8', '9'] " ms".toList (by decide) (by decide) (by decide)
    (by decide) (by decide) (by decide) (by decide) (by decide) (by decide)
    (by decide) (by decide) (by decide) (by decide) (by decide)

/-! ## Claim C8 -/

/-- C8 counterexample: the claim states that when the utility exits
successfully but the output lacks the decimal `/<min>/<avg>/<max>/`
pattern, the call fails with a parse error.  The output `/1.0/2.0/`
contains no three-number pattern at all, yet `checkPing` succeeds with
2.0: the code's regular expression only requires TWO slash-delimited
decimals. -/
theorem c8_counterexample :
    specHasTriadStr "/1.0/2.0/" = false ∧ checkPing (some "/1.0/2.0/") = .ok 2 :=
  ⟨by decide, by decide⟩

/-- C8 amended: `checkPing` returns a strictly positive value only on
success and an error in every other case; a failed run yields exactly
the message "ping failed: host unreachable or timeout"; a successful
run whose output lacks the TWO-decimal pattern `/(\d+\.\d+)/(\d+\.\d+)/`
(rather than the spec's three-number triad) fails with a parse error,
and a parsed non-positive value fails with an invalid-result error. -/
theorem c8_amended :
    (∀ (run : Option String) (v : ℚ), checkPing run = .ok v → 0 < v)
    ∧ checkPing Option.none = .error .unreachable
    ∧ PingErr.msg .unreachable = "ping failed: host unreachable or timeout"
    ∧ (∀ out : String, findFirst out.toList = Option.none →
        checkPing (some out) = .error .noMatch)
    ∧ (∀ (out : String) (g1 g2 : List Char) (v : ℚ),
        findFirst out.toList = some (g1, g2) → parseDec g2 = some v →
        v ≤ 0 → checkPing (some out) = .error (.invalid v)) := by
  refine ⟨?_, rfl, rfl, ?_, ?_⟩
  · intro run v h
    cases run with
    | none => exact absurd h (by simp [checkPing])
    | some out =>
      rw [checkPing_some] at h
      unfold checkPingList at h
      cases hf : findFirst out.toList with
      | none => rw [hf] at h; exact absurd h (by simp)
      | some g =>
        obtain ⟨g1, g2⟩ := g
        rw [hf] at h
        cases hp : parseDec g2 with
        | none => simp only [hp] at h; exact absurd h (by simp)
        | some val =>
          simp only [hp] at h
          by_cases hle : val ≤ 0
          · rw [if_pos hle] at h; exact absurd h (by simp)
          · rw [if_neg hle] at h
            cases h
            exact lt_of_not_le hle
  · intro out h
    rw [checkPing_some]
    unfold checkPingList
    rw [h]
  · intro out g1 g2 v h1 h2 h3
    rw [checkPing_some]
    unfold checkPingList
    rw [h1]
    simp only [h2]
    rw [if_pos h3]

/-- C8 amended, instantiated: a successful parse is positive, and an
output with no match of the two-decimal pattern is a parse failure. -/
theorem c8_amended_witness :
    (0 : ℚ) < 2 ∧ checkPing (some "PING example.com") = .error .noMatch :=
  ⟨c8_amended.1 (some "/1.0/2.0/3.0/") 2 (by decide),
   c8_amended.2.2.2.1 "PING example.com" (by decide)⟩

/-! ## Lemmas about the handler -/

lemma handleRequest_authorized (c : Ctx) (req : Req)
    (hauth : c.apiKey = "" ∨ req.key = c.apiKey) :
    ¬(c.apiKey ≠ "" ∧ req.key ≠ c.apiKey) := by
  rcases hauth with h | h
  · exact fun hc => hc.1 h
  · exact fun hc => hc.2 h

/-! ## Claim C1 -/

/-- C1 counterexample: the claim states that EVERY response body,
including terminal rejections, has the envelope shape
`{host, type, result, error?}` with a numeric result.  A request that
fails the credential check receives a 403 whose body is
`{"error": "Auth failed"}` — built by `sendError` from a
`map[string]string` — which carries no host, no type and no result
field. -/
theorem c1_counterexample :
    (handleRequest ⟨"secret", 20, 0⟩ ⟨"wrong", "example.com", "", false⟩
        .send probeConst).emitted
      = .resp 403 (.errorOnly "Auth failed")
    ∧ Body.hasEnvelopeShape (.errorOnly "Auth failed") = false :=
  ⟨by decide, by decide⟩

/-- C1 amended: a completed probe is answered with status 200 and the
full envelope — result equal to the probe's payload and no error field
on success, result 0 and the failure's message on failure — while the
terminal rejections (403, 400, 503) carry an error-only body without
the envelope shape. -/
theorem c1_amended (c : Ctx) (req : Req) (pick : SelectPick)
    (probe : String → String → Except String ℚ) (st : Nat) (b : Body)
    (h : (handleRequest c req pick probe).emitted = .resp st b) :
    (st = 200 ∧ Body.hasEnvelopeShape b = true ∧
      ((∃ v, probe (selMethod req.method) req.host = .ok v ∧
          b = .envelope req.host (selMethod req.method) v Option.none) ∨
       (∃ m, probe (selMethod req.method) req.host = .error m ∧
          b = .envelope req.host (selMethod req.method) 0 (some m))))
    ∨ ((st = 403 ∨ st = 400 ∨ st = 503) ∧ Body.hasEnvelopeShape b = false) := by
  unfold handleRequest at h
  split at h
  · cases h
    right
    exact ⟨Or.inl rfl, rfl⟩
  · split at h
    · cases h
      right
      exact ⟨Or.inr (Or.inl rfl), rfl⟩
    · split at h
      · exact absurd h (by simp)
      · cases h
        right
        exact ⟨Or.inr (Or.inr rfl), rfl⟩
      · rename_i hgate
        split at h
        · rename_i v hp
          cases h
          exact Or.inl ⟨rfl, rfl, Or.inl ⟨v, hp, rfl⟩⟩
        · rename_i e hp
          cases h
          exact Or.inl ⟨rfl, rfl, Or.inr ⟨e, hp, rfl⟩⟩

/-- C1 amended, instantiated at a rejected credential. -/
theorem c1_amended_witness :
    (403 = 200 ∧ Body.hasEnvelopeShape (.errorOnly "Auth failed") = true ∧
      ((∃ v, probeConst (selMethod "") "example.com" = .ok v ∧
          Body.errorOnly "Auth failed"
            = .envelope "example.com" (selMethod "") v Option.none) ∨
       (∃ m, probeConst (selMethod "") "example.com" = .error m ∧
          Body.errorOnly "Auth failed"
            = .envelope "example.com" (selMethod "") 0 (some m))))
    ∨ ((403 = 403 ∨ 403 = 400 ∨ 403 = 503) ∧
        Body.hasEnvelopeShape (.errorOnly "Auth failed") = false) :=
  c1_amended ⟨"secret", 20, 0⟩ ⟨"wrong", "example.com", "", false⟩ .send
    probeConst 403 (.errorOnly "Auth failed") (by decide)

/-! ## Claim C3 -/

/-- C3 counterexample: the claim states that a request whose context is
already cancelled when the gate is consulted never admits, never runs a
probe and emits nothing — even when a free slot is available.  But the
`select` of lines 98-109 has BOTH the acquisition case and the
cancellation case ready in that situation, and per the Go specification
one of them is chosen via uniform pseudo-random selection: when the
acquisition case is chosen (`SelectPick.send`), the cancelled request
is admitted, the probe runs, and a 200 response is produced. -/
theorem c3_counterexample :
    handleRequest ⟨"", 1, 0⟩ ⟨"", "example.com", "", true⟩ .send probeConst
      = { emitted := .resp 200 (.envelope "example.com" "ping" 1 Option.none),
          probeRan := true, gateConsulted := true, admitted := true,
          usedAfter := 0, probeArgs := some ("ping", "example.com") } :=
  by decide

/-- C3 amended: a cancelled, authorized, validated request is silently
abandoned — nothing emitted, no probe, no slot taken — whenever no slot
is free, or whenever the select resolves to the cancellation case; with
a free slot the select may also resolve to admission. -/
theorem c3_amended (c : Ctx) (req : Req) (pick : SelectPick)
    (probe : String → String → Except String ℚ)
    (hauth : c.apiKey = "" ∨ req.key = c.apiKey) (hhost : req.host ≠ "")
    (hcancel : req.cancelled = true)
    (hnarrow : pick = .done ∨ c.capacity ≤ c.used) :
    handleRequest c req pick probe
      = { emitted := .none, probeRan := false, gateConsulted := true,
          admitted := false, usedAfter := c.used, probeArgs := Option.none } := by
  unfold handleRequest
  rw [if_neg (handleRequest_authorized c req hauth), if_neg hhost]
  have hg : gateStep (decide (c.used < c.capacity)) req.cancelled pick
      = .abandoned := by
    rw [hcancel]
    rcases hnarrow with hp | hcap
    · subst hp
      cases hdec : decide (c.used < c.capacity) <;> simp [gateStep]
    · rw [decide_eq_false (Nat.not_lt.mpr hcap)]
      rfl
  rw [hg]

/-- C3 amended, instantiated: capacity exhausted and caller cancelled. -/
theorem c3_amended_witness :
    handleRequest ⟨"", 1, 1⟩ ⟨"", "example.com", "", true⟩ .send probeConst
      = { emitted := .none, probeRan := false, gateConsulted := true,
          admitted := false, usedAfter := 1, probeArgs := Option.none } :=
  c3_amended ⟨"", 1, 1⟩ ⟨"", "example.com", "", true⟩ .send probeConst
    (Or.inl rfl) (by decide) rfl (Or.inr (by decide))

/-! ## Claim C4 -/

/-- C4: with a non-empty configured credential, any request whose `key`
differs is answered 403 with no probe run and the gate never consulted;
with no credential configured, the handler's behaviour does not depend
on the supplied `key` at all. -/
theorem c4_auth :
    (∀ (c : Ctx) (req : Req) (pick : SelectPick)
        (probe : String → String → Except String ℚ),
        c.apiKey ≠ "" → req.key ≠ c.apiKey →
        handleRequest c req pick probe
          = { emitted := .resp 403 (.errorOnly "Auth failed"), probeRan := false,
              gateConsulted := false, admitted := false, usedAfter := c.used,
              probeArgs := Option.none })
    ∧ (∀ (c : Ctx) (req : Req) (pick : SelectPick)
        (probe : String → String → Except String ℚ) (k2 : String),
        c.apiKey = "" →
        handleRequest c req pick probe
          = handleRequest c { req with key := k2 } pick probe) := by
  constructor
  · intro c req pick probe h1 h2
    unfold handleRequest
    rw [if_pos ⟨h1, h2⟩]
  · intro c req pick probe k2 h
    unfold handleRequest
    rw [if_neg (show ¬(c.apiKey ≠ "" ∧ req.key ≠ c.apiKey) from fun hc => hc.1 h),
      if_neg (show ¬(c.apiKey ≠ "" ∧ ({ req with key := k2 } : Req).key ≠ c.apiKey)
        from fun hc => hc.1 h)]

/-- C4, instantiated: a wrong key against a configured credential, and
key-independence with no credential configured. -/
theorem c4_auth_witness :
    handleRequest ⟨"secret", 20, 0⟩ ⟨"bad", "example.com", "", false⟩ .send probeConst
      = { emitted := .resp 403 (.errorOnly "Auth failed"), probeRan := false,
          gateConsulted := false, admitted := false, usedAfter := 0,
          probeArgs := Option.none }
    ∧ handleRequest ⟨"", 20, 0⟩ ⟨"anything", "example.com", "", false⟩ .send probeConst
      = handleRequest ⟨"", 20, 0⟩ ⟨"other", "example.com", "", false⟩ .send probeConst :=
  ⟨c4_auth.1 ⟨"secret", 20, 0⟩ ⟨"bad", "example.com", "", false⟩ .send probeConst
      (by decide) (by decide),
   c4_auth.2 ⟨"", 20, 0⟩ ⟨"anything", "example.com", "", false⟩ .send probeConst
      "other" rfl⟩

/-! ## Claim C5 -/

/-- C5: an authorized request with an empty `host` is answered 400,
whatever the `method` value, before the gate is consulted and before
any probe runs. -/
theorem c5_empty_host (c : Ctx) (req : Req) (pick : SelectPick)
    (probe : String → String → Except String ℚ)
    (hauth : c.apiKey = "" ∨ req.key = c.apiKey) (hhost : req.host = "") :
    handleRequest c req pick probe
      = { emitted := .resp 400 (.errorOnly "host required"), probeRan := false,
          gateConsulted := false, admitted := false, usedAfter := c.used,
          probeArgs := Option.none } := by
  unfold handleRequest
  rw [if_neg (handleRequest_authorized c req hauth), if_pos hhost]

/-- C5, instantiated with `method=https` to exhibit independence from
the method. -/
theorem c5_empty_host_witness :
    handleRequest ⟨"", 20, 0⟩ ⟨"", "", "https", false⟩ .send probeConst
      = { emitted := .resp 400 (.errorOnly "host required"), probeRan := false,
          gateConsulted := false, admitted := false, usedAfter := 0,
          probeArgs := Option.none } :=
  c5_empty_host ⟨"", 20, 0⟩ ⟨"", "", "https", false⟩ .send probeConst
    (Or.inl rfl) rfl

/-! ## Claim C6 -/

/-- C6: an authorized, validated, non-cancelled request that finds all
slots occupied is answered 503 immediately (the select's default
branch — never queued), no probe runs, and no slot is held on exit. -/
theorem c6_gate_full (c : Ctx) (req : Req) (pick : SelectPick)
    (probe : String → String → Except String ℚ)
    (hauth : c.apiKey = "" ∨ req.key = c.apiKey) (hhost : req.host ≠ "")
    (hcancel : req.cancelled = false) (hfull : c.capacity ≤ c.used) :
    handleRequest c req pick probe
      = { emitted := .resp 503 (.errorOnly "Server is too busy, try again later"),
          probeRan := false, gateConsulted := true, admitted := false,
          usedAfter := c.used, probeArgs := Option.none } := by
  unfold handleRequest
  rw [if_neg (handleRequest_authorized c req hauth), if_neg hhost,
    decide_eq_false (Nat.not_lt.mpr hfull), hcancel]
  rfl

/-- C6, instantiated at a full gate of capacity 2. -/
theorem c6_gate_full_witness :
    handleRequest ⟨"", 2, 2⟩ ⟨"", "example.com", "", false⟩ .send probeConst
      = { emitted := .resp 503 (.errorOnly "Server is too busy, try again later"),
          probeRan := false, gateConsulted := true, admitted := false,
          usedAfter := 2, probeArgs := Option.none } :=
  c6_gate_full ⟨"", 2, 2⟩ ⟨"", "example.com", "", false⟩ .send probeConst
    (Or.inl rfl) (by decide) rfl (by decide)

/-! ## Claim C7 -/

/-- C7: an admitted request whose probe fails is answered with HTTP
status 200 — never a server-error status — with result 0 and the
failure's message in the error field; the slot is released on exit. -/
theorem c7_probe_failure (c : Ctx) (req : Req) (pick : SelectPick)
    (probe : String → String → Except String ℚ) (msg : String)
    (hauth : c.apiKey = "" ∨ req.key = c.apiKey) (hhost : req.host ≠ "")
    (hfree : c.used < c.capacity)
    (hsel : req.cancelled = false ∨ pick = .send)
    (hp : probe (selMethod req.method) req.host = .error msg) :
    handleRequest c req pick probe
      = { emitted := .resp 200 (.envelope req.host (selMethod req.method) 0 (some msg)),
          probeRan := true, gateConsulted := true, admitted := true,
          usedAfter := c.used,
          probeArgs := some (selMethod req.method, req.host) } := by
  unfold handleRequest
  rw [if_neg (handleRequest_authorized c req hauth), if_neg hhost,
    decide_eq_true hfree]
  have hg : gateStep true req.cancelled pick = .admitted := by
    rcases hsel with h | h
    · rw [h]; rfl
    · subst h
      cases req.cancelled <;> simp [gateStep]
  rw [hg]
  simp only [hp]

/-- C7, instantiated at a probe that reports an unreachable host. -/
theorem c7_probe_failure_witness :
    handleRequest ⟨"", 20, 3⟩ ⟨"", "example.com", "", false⟩ .send
        (fun _ _ => .error "ping failed: host unreachable or timeout")
      = { emitted := .resp 200 (.envelope "example.com" "ping" 0
            (some "ping failed: host unreachable or timeout")),
          probeRan := true, gateConsulted := true, admitted := true,
          usedAfter := 3, probeArgs := some ("ping", "example.com") } :=
  c7_probe_failure ⟨"", 20, 3⟩ ⟨"", "example.com", "", false⟩ .send
    (fun _ _ => .error "ping failed: host unreachable or timeout")
    "ping failed: host unreachable or timeout" (Or.inl rfl) (by decide)
    (by decide) (Or.inl rfl) rfl

/-! ## Claim C9 -/

/-- C9: `checkHTTP` strips a leading `http://` or `https://` from the
host, issues the request against `scheme://strippedHost`, and on a
completed round trip returns the raw status code unmodified with no
error — a 204 or 404 responder yields that literal code. -/
theorem c9_http :
    (∀ (net : String → Except String Nat) (host scheme : String) (code : Nat),
        net (targetUrl host scheme) = .ok code →
        checkHTTP net host scheme = .ok code)
    ∧ stripHost "http://example.com" = "example.com"
    ∧ stripHost "https://example.com" = "example.com"
    ∧ stripHost "example.com" = "example.com"
    ∧ targetUrl "http://example.com" "https" = "https://example.com"
    ∧ targetUrl "plain.example" "http" = "http://plain.example"
    ∧ checkHTTP (fun _ => .ok 404) "example.com" "http" = .ok 404
    ∧ checkHTTP (fun _ => .ok 204) "https://example.com" "https" = .ok 204 :=
  ⟨fun _ _ _ _ h => h, by decide, by decide, by decide, by decide, by decide,
   rfl, rfl⟩

/-- C9, instantiated: the round trip sees the stripped URL and its
status is passed through. -/
theorem c9_http_witness :
    checkHTTP (fun u => if u = "https://ok.example" then .ok 204 else .error "bad url")
        "http://ok.example" "https" = .ok 204 :=
  c9_http.1 (fun u => if u = "https://ok.example" then .ok 204 else .error "bad url")
    "http://ok.example" "https" 204 (by decide)

/-! ## Claim C10 -/

/-- C10: validation tests only literal emptiness — any non-empty host,
whitespace or shell metacharacters included, reaches the selected probe
verbatim, and the ping argument vector carries it unmodified as the
final direct argument. -/
theorem c10_host_verbatim (c : Ctx) (req : Req) (pick : SelectPick)
    (probe : String → String → Except String ℚ)
    (hauth : c.apiKey = "" ∨ req.key = c.apiKey) (hhost : req.host ≠ "")
    (hfree : c.used < c.capacity)
    (hsel : req.cancelled = false ∨ pick = .send) :
    (handleRequest c req pick probe).probeRan = true
    ∧ (handleRequest c req pick probe).probeArgs
        = some (selMethod req.method, req.host)
    ∧ pingCmdArgs req.host = ["-c", "3", "-W", "2", "-q", req.host] := by
  have hg : gateStep true req.cancelled pick = .admitted := by
    rcases hsel with h | h
    · rw [h]; rfl
    · subst h
      cases req.cancelled <;> simp [gateStep]
  cases hp : probe (selMethod req.method) req.host with
  | ok v =>
    unfold handleRequest
    rw [if_neg (handleRequest_authorized c req hauth), if_neg hhost,
      decide_eq_true hfree, hg]
    simp [hp, pingCmdArgs]
  | error e =>
    unfold handleRequest
    rw [if_neg (handleRequest_authorized c req hauth), if_neg hhost,
      decide_eq_true hfree, hg]
    simp [hp, pingCmdArgs]

/-- C10, instantiated at a host made of spaces and shell
metacharacters. -/
theorem c10_host_verbatim_witness :
    (handleRequest ⟨"", 20, 0⟩ ⟨"", " $(x); rm ", "", false⟩ .send
        probeConst).probeRan = true
    ∧ (handleRequest ⟨"", 20, 0⟩ ⟨"", " $(x); rm ", "", false⟩ .send
        probeConst).probeArgs = some (selMethod "", " $(x); rm ")
    ∧ pingCmdArgs " $(x); rm " = ["-c", "3", "-W", "2", "-q", " $(x); rm "] :=
  c10_host_verbatim ⟨"", 20, 0⟩ ⟨"", " $(x); rm ", "", false⟩ .send probeConst
    (Or.inl rfl) (by decide) (by decide) (Or.inl rfl)

end Pinger
